import Mathlib

/-!
# Verification of the `pack` build-lifecycle orchestrator

Shallow embedding of `internal/build/build.go` (package `build`): the mount-path
resolver, random volume-name generation, `Setup`, `Cleanup` and the `Execute`
control flow of the lifecycle orchestrator.

External collaborators (phase containers, the docker client, the cache volume
package, the logger) are modelled as injected result environments; every call
the orchestrator makes to them is recorded in an event trace, so that ordering,
skipping and cleanup claims become statements about that trace.
-/

namespace Pack

/-- Errors as a wrap chain, mirroring `github.com/pkg/errors`: a base message or
a wrapper adding operation context (the `errors.Wrap` / `errors.Wrapf` message)
around a cause. -/
inductive Err where
  | base (msg : String)
  | wrap (ctx : String) (cause : Err)
deriving DecidableEq

/-- Whether the error chain of `e` contains `t` (an `errors.Cause`-style walk). -/
def Err.contains : Err → Err → Bool
  | .base m, t => decide (Err.base m = t)
  | .wrap c e, t => decide (Err.wrap c e = t) || e.contains t

/-- A `context.Context` value; only its cancellation status is relevant to this
model. `Ctx.background` models `context.Background()`, which is never cancelled. -/
structure Ctx where
  cancelled : Bool
deriving DecidableEq

/-- `context.Background()`. -/
def Ctx.background : Ctx := ⟨false⟩

/-- Observable actions of one orchestrator run, in program order:
log calls, cache `Clear` calls (identified by image reference and cache kind),
phase invocations, the `Cleanup` call and its two `VolumeRemove` calls
(recording which context each removal was issued with). -/
inductive Event where
  | debugUsingBuildCache (name : String)
  | debugBuildCacheCleared (name : String)
  | step (name : String)
  | infoSkipRestore
  | cacheClear (imageRef : String) (kind : String)
  | phase (name : String)
  | cleanupCall
  | volumeRemove (ctx : Ctx) (volName : String) (force : Bool)
deriving DecidableEq

/-- `mountPaths`: the resolved in-container path conventions (field `prefix`
in the source; `prefix` is not a usable identifier in Lean). -/
structure MountPaths where
  pathPrefix : String
deriving DecidableEq

/-- `mountPathsForOS`. -/
def mountPathsForOS (os : String) : MountPaths :=
  let p := if os = "windows" then "c:\\" else "/"
  ⟨p⟩

/-- `mountPaths.layersDir`. -/
def MountPaths.layersDir (m : MountPaths) : String := m.pathPrefix ++ "layers"

/-- `mountPaths.appDirName`. -/
def MountPaths.appDirName (_m : MountPaths) : String := "workspace"

/-- `mountPaths.appDir`. -/
def MountPaths.appDir (m : MountPaths) : String := m.pathPrefix ++ m.appDirName

/-- `mountPaths.cacheDir`. -/
def MountPaths.cacheDir (m : MountPaths) : String := m.pathPrefix ++ "cache"

/-- `mountPaths.launchCacheDir`. -/
def MountPaths.launchCacheDir (m : MountPaths) : String := m.pathPrefix ++ "launch-cache"

/-- `mountPaths.platformDir`. -/
def MountPaths.platformDir (m : MountPaths) : String := m.pathPrefix ++ "platform"

/-- The `Builder` collaborator: name, uid/gid, the strings read from its
lifecycle descriptor, and the result of querying its image for the OS
(`Image().OS()` can fail, which is the one failure source of `Setup`). -/
structure Builder where
  name : String
  uid : Int
  gid : Int
  lifecycleVersion : String
  platformAPIVersion : String
  imageOS : Except Err String

/-- `LifecycleOptions` (the `name.Reference` image is represented by its
`Name()` string; the file filter by its predicate). -/
structure LifecycleOptions where
  appPath : String
  image : String
  builder : Builder
  runImage : String
  clearCache : Bool
  publish : Bool
  httpProxy : String
  httpsProxy : String
  noProxy : String
  network : String
  volumes : List String
  defaultProcessType : String
  fileFilter : String → Bool

/-- The mutable `Lifecycle` session state (the docker client, logger and the
`sync.Once` guard are carried outside the model). -/
structure Lifecycle where
  appPath : String := ""
  httpProxy : String := ""
  httpsProxy : String := ""
  noProxy : String := ""
  version : String := ""
  platformAPIVersion : String := ""
  layersVolume : String := ""
  appVolume : String := ""
  defaultProcessType : String := ""
  builder : Option Builder := none
  fileFilter : String → Bool := fun _ => true
  os : String := ""
  mountPaths : MountPaths := ⟨""⟩

/-- Injected outcomes of the external calls `Execute` makes: the build cache
`Clear` and the six phase invocations. Each may inspect the context it was
called with (so a cancelled context can be made to fail a phase). -/
structure PhaseEnv where
  clearResult : Ctx → Option Err
  prepareResult : Ctx → Option Err
  detectResult : Ctx → Option Err
  analyzeResult : Ctx → Option Err
  restoreResult : Ctx → Option Err
  buildResult : Ctx → Option Err
  exportResult : Ctx → Option Err

/-- The docker client capability used by `Cleanup`: `VolumeRemove(ctx, name, force)`. -/
structure Docker where
  volumeRemove : Ctx → String → Bool → Option Err

/-- `randString(n)`: n bytes, each `'a' + rand.Intn(26)`, as a string.
The random source is the stream of `rand.Intn(26)` draws, indexed by call order. -/
def randString (n : Nat) (rnd : Nat → Fin 26) : String :=
  String.mk ((List.range n).map (fun i => Char.ofNat (97 + (rnd i).val)))

/-- The field assignments `Setup` performs before querying the builder image
for its OS (in the source these happen unconditionally, even if the OS query
later fails). The first ten draws of `rnd` name the layers volume, the next
ten the app volume. -/
def Lifecycle.setupState (l : Lifecycle) (opts : LifecycleOptions) (rnd : Nat → Fin 26) :
    Lifecycle :=
  { l with
    layersVolume := "pack-layers-" ++ randString 10 rnd
    appVolume := "pack-app-" ++ randString 10 (fun i => rnd (10 + i))
    appPath := opts.appPath
    builder := some opts.builder
    httpProxy := opts.httpProxy
    httpsProxy := opts.httpsProxy
    noProxy := opts.noProxy
    version := opts.builder.lifecycleVersion
    platformAPIVersion := opts.builder.platformAPIVersion
    defaultProcessType := opts.defaultProcessType
    fileFilter := opts.fileFilter }

/-- The state after a successful `Setup`: the OS recorded and mount paths resolved. -/
def Lifecycle.setupOkState (l : Lifecycle) (opts : LifecycleOptions) (rnd : Nat → Fin 26)
    (os : String) : Lifecycle :=
  { l.setupState opts rnd with os := os, mountPaths := mountPathsForOS os }

/-- `Lifecycle.Setup`: assign the session fields (volume names first), then query
the builder image OS; on failure return that error, otherwise resolve mount paths. -/
def Lifecycle.Setup (l : Lifecycle) (opts : LifecycleOptions) (rnd : Nat → Fin 26) :
    Lifecycle × Option Err :=
  match opts.builder.imageOS with
  | .error e => (l.setupState opts rnd, some e)
  | .ok os => (l.setupOkState opts rnd os, none)

/-- The trace a `Cleanup` call produces: both volume removals are issued,
unconditionally, with `context.Background()`. -/
def cleanupEvents (l : Lifecycle) : List Event :=
  [.cleanupCall,
   .volumeRemove Ctx.background l.layersVolume true,
   .volumeRemove Ctx.background l.appVolume true]

/-- `Lifecycle.Cleanup`: remove the layers volume, then the app volume, each with
a fresh background context and `force = true`; a failed removal is wrapped with
the volume name and stored in `reterr` (a second failure overwrites the first). -/
def Lifecycle.Cleanup (l : Lifecycle) (docker : Docker) : Option Err × List Event :=
  let reterr : Option Err :=
    match docker.volumeRemove Ctx.background l.layersVolume true with
    | some e => some (.wrap ("failed to clean up layers volume " ++ l.layersVolume) e)
    | none => none
  let reterr : Option Err :=
    match docker.volumeRemove Ctx.background l.appVolume true with
    | some e => some (.wrap ("failed to clean up app volume " ++ l.appVolume) e)
    | none => reterr
  (reterr, cleanupEvents l)

/-- The BUILDING and EXPORTING steps of `Execute` (its tail after the restore
decision): run Build, then Export, stopping at the first error. -/
def Lifecycle.buildExport (_l : Lifecycle) (ctx : Ctx) (env : PhaseEnv)
    (ev : List Event) : Option Err × List Event :=
  let ev := ev ++ [.step "BUILDING", .phase "build"]
  match env.buildResult ctx with
  | some e => (some e, ev)
  | none =>
    let ev := ev ++ [.step "EXPORTING", .phase "export"]
    match env.exportResult ctx with
    | some e => (some e, ev)
    | none => (none, ev)

/-- The phase sequence of `Execute` after the cache-clear block: PREPARING,
DETECTING, ANALYZING, then RESTORING (skipped with an informational message
when `ClearCache` is set), then BUILDING and EXPORTING; each phase error
returns immediately. -/
def Lifecycle.phaseSequence (l : Lifecycle) (ctx : Ctx) (opts : LifecycleOptions)
    (env : PhaseEnv) (ev : List Event) : Option Err × List Event :=
  let ev := ev ++ [.step "PREPARING", .phase "prepareAppVolume"]
  match env.prepareResult ctx with
  | some e => (some e, ev)
  | none =>
    let ev := ev ++ [.step "DETECTING", .phase "detect"]
    match env.detectResult ctx with
    | some e => (some e, ev)
    | none =>
      let ev := ev ++ [.step "ANALYZING", .phase "analyze"]
      match env.analyzeResult ctx with
      | some e => (some e, ev)
      | none =>
        let ev := ev ++ [.step "RESTORING"]
        if opts.clearCache then
          l.buildExport ctx env (ev ++ [.infoSkipRestore])
        else
          let ev := ev ++ [.phase "restore"]
          match env.restoreResult ctx with
          | some e => (some e, ev)
          | none => l.buildExport ctx env ev

/-- The body of `Execute` between `Setup` and the deferred `Cleanup`: obtain the
build (and launch) cache handles, log the build cache name, clear the build
cache when requested (a clear failure is wrapped with "clearing build cache"
and aborts), then run the phase sequence. `cn image kind` is the collaborator
deriving a cache volume name from the image reference and cache kind. -/
def Lifecycle.executePhases (l : Lifecycle) (ctx : Ctx) (opts : LifecycleOptions)
    (env : PhaseEnv) (cn : String → String → String) : Option Err × List Event :=
  let buildCacheName := cn opts.image "build"
  let ev0 : List Event := [.debugUsingBuildCache buildCacheName]
  if opts.clearCache then
    match env.clearResult ctx with
    | some e =>
        (some (.wrap "clearing build cache" e), ev0 ++ [.cacheClear opts.image "build"])
    | none =>
        l.phaseSequence ctx opts env
          (ev0 ++ [.cacheClear opts.image "build", .debugBuildCacheCleared buildCacheName])
  else
    l.phaseSequence ctx opts env ev0

/-- `Lifecycle.Execute`: run `Setup` (returning its error with nothing else done
if it fails), then run the body with `Cleanup` deferred on every exit path;
the deferred `Cleanup` error is discarded, its events appended to the trace. -/
def Lifecycle.Execute (l : Lifecycle) (ctx : Ctx) (opts : LifecycleOptions)
    (rnd : Nat → Fin 26) (env : PhaseEnv) (docker : Docker)
    (cn : String → String → String) : Option Err × List Event :=
  match l.Setup opts rnd with
  | (_, some e) => (some e, [])
  | (l1, none) =>
    let body := l1.executePhases ctx opts env cn
    let cleanup := l1.Cleanup docker
    (body.1, body.2 ++ cleanup.2)

/-- `SupportedPlatformAPIVersions`. -/
def SupportedPlatformAPIVersions : List String := ["0.2", "0.3"]

/-- Modelled from the spec: the platform-API compatibility gate. The source under
`src/` only declares `SupportedPlatformAPIVersions`; the caller that consults it
before running the lifecycle is not part of the sources. Per the spec, the
orchestrator's caller "must refuse to run the lifecycle if the builder's declared
platform API is outside this list", rejecting the build before any phase is
invoked or any volume is created. -/
def runLifecycleGated (l : Lifecycle) (ctx : Ctx) (opts : LifecycleOptions)
    (rnd : Nat → Fin 26) (env : PhaseEnv) (docker : Docker)
    (cn : String → String → String) : Option Err × List Event :=
  if SupportedPlatformAPIVersions.contains opts.builder.platformAPIVersion then
    l.Execute ctx opts rnd env docker cn
  else
    (some (.base ("pack does not support builder platform API version "
      ++ opts.builder.platformAPIVersion)), [])

/-- Project an event to its step / phase / skip content, dropping debug, cache
and volume events: the observation relevant to phase sequencing. -/
def tok : Event → Option Event
  | .step s => some (.step s)
  | .phase p => some (.phase p)
  | .infoSkipRestore => some .infoSkipRestore
  | _ => none

/-- The full planned sequence of step banners, phase invocations and the skip
notice, as a function of the cache-clear flag. -/
def planTokens (clearCache : Bool) : List Event :=
  [.step "PREPARING", .phase "prepareAppVolume",
   .step "DETECTING", .phase "detect",
   .step "ANALYZING", .phase "analyze",
   .step "RESTORING"]
  ++ (if clearCache then [.infoSkipRestore] else [.phase "restore"])
  ++ [.step "BUILDING", .phase "build",
      .step "EXPORTING", .phase "export"]

/-- Number of `Cleanup` invocations recorded in a trace. -/
def countCleanup : List Event → Nat
  | [] => 0
  | .cleanupCall :: t => countCleanup t + 1
  | _ :: t => countCleanup t

/-! ## Sample values used to instantiate universally quantified results -/

/-- A deterministic stand-in for the random source: every draw is 0 (`'a'`). -/
def rnd0 : Nat → Fin 26 := fun _ => ⟨0, by norm_num⟩

/-- A live (non-cancelled) caller context. -/
def ctx0 : Ctx := ⟨false⟩

/-- A cancelled caller context. -/
def ctxCancelled : Ctx := ⟨true⟩

/-- A builder whose image reports a Linux OS. -/
def sampleBuilder : Builder :=
  { name := "sample/builder", uid := 1000, gid := 1000,
    lifecycleVersion := "0.7.5", platformAPIVersion := "0.3",
    imageOS := .ok "linux" }

/-- A builder whose image OS query fails (the one `Setup` failure source). -/
def badOSBuilder : Builder :=
  { sampleBuilder with imageOS := .error (.base "no os recorded") }

/-- Baseline options: no cache clear. -/
def sampleOpts : LifecycleOptions :=
  { appPath := "/home/app", image := "registry.example/app", builder := sampleBuilder,
    runImage := "run", clearCache := false, publish := false,
    httpProxy := "", httpsProxy := "", noProxy := "", network := "",
    volumes := [], defaultProcessType := "web", fileFilter := fun _ => true }

/-- Options requesting a cache clear. -/
def optsClear : LifecycleOptions := { sampleOpts with clearCache := true }

/-- Options with a failing OS query and a cache-clear request. -/
def optsBadOS : LifecycleOptions := { optsClear with builder := badOSBuilder }

/-- An environment in which every external call succeeds. -/
def envOk : PhaseEnv :=
  { clearResult := fun _ => none, prepareResult := fun _ => none,
    detectResult := fun _ => none, analyzeResult := fun _ => none,
    restoreResult := fun _ => none, buildResult := fun _ => none,
    exportResult := fun _ => none }

/-- An environment in which the detect phase fails. -/
def envDetectFail : PhaseEnv :=
  { envOk with detectResult := fun _ => some (.base "detector exited 1") }

/-- A docker client whose volume removals succeed. -/
def docker0 : Docker := ⟨fun _ _ _ => none⟩

/-- A cache-name resolver. -/
def cn0 : String → String → String := fun image kind => "pack-cache-" ++ image ++ "." ++ kind

/-- An environment in which clearing the build cache fails. -/
def envClearFail : PhaseEnv :=
  { envOk with clearResult := fun _ => some (.base "cache rm failed") }

/-- A session whose two volumes have known names, for exercising `Cleanup`. -/
def cleanupL : Lifecycle := { layersVolume := "pack-layers-l", appVolume := "pack-app-a" }

/-- A docker client in which both volume removals fail, with distinct errors. -/
def dockerBothFail : Docker :=
  ⟨fun _ name _ =>
    if name = "pack-layers-l" then some (.base "layers rm failed")
    else some (.base "app rm failed")⟩

/-- A builder declaring the unsupported platform API version `"0.9"`. -/
def builder09 : Builder := { sampleBuilder with platformAPIVersion := "0.9" }

/-- Options carrying the unsupported-platform-API builder. -/
def opts09 : LifecycleOptions := { sampleOpts with builder := builder09 }

/-! ## Mount-path resolution -/

theorem mountPathsForOS_pathPrefix (os : String) :
    (mountPathsForOS os).pathPrefix = if os = "windows" then "c:\\" else "/" := rfl

/-- **C6.** Mount-path resolution is a total function of the OS string with no
error case; the path root is the Windows drive root exactly for the input
`"windows"` and the POSIX root for every other value, and each derived path is
the invariant suffix (`layers`, `workspace`, `cache`, `launch-cache`,
`platform`) appended to that root. -/
theorem C6_mount_path_resolution (os : String) :
    ((mountPathsForOS os).pathPrefix = "c:\\" ↔ os = "windows")
    ∧ (os ≠ "windows" → (mountPathsForOS os).pathPrefix = "/")
    ∧ (mountPathsForOS os).layersDir = (mountPathsForOS os).pathPrefix ++ "layers"
    ∧ (mountPathsForOS os).appDir = (mountPathsForOS os).pathPrefix ++ "workspace"
    ∧ (mountPathsForOS os).cacheDir = (mountPathsForOS os).pathPrefix ++ "cache"
    ∧ (mountPathsForOS os).launchCacheDir
        = (mountPathsForOS os).pathPrefix ++ "launch-cache"
    ∧ (mountPathsForOS os).platformDir = (mountPathsForOS os).pathPrefix ++ "platform" := by
  refine ⟨?_, ?_, rfl, rfl, rfl, rfl, rfl⟩
  · by_cases h : os = "windows" <;> simp [mountPathsForOS, h]
  · intro h; simp [mountPathsForOS, h]

/-- Witness for C6 at the concrete OS `"darwin"`. -/
theorem C6_mount_path_resolution_witness : (mountPathsForOS "darwin").pathPrefix = "/" :=
  (C6_mount_path_resolution "darwin").2.1 (by decide)

/-- **C10.** The OS comparison is case sensitive: any string other than the
exact `"windows"` (so also `"Windows"`, `"WINDOWS"`) gets the POSIX root. -/
theorem C10_windows_check_case_sensitive (os : String) (h : os ≠ "windows") :
    (mountPathsForOS os).pathPrefix = "/" := by
  simp [mountPathsForOS, h]

/-- Witness for C10 at the mixed-case inputs `"Windows"` and `"WINDOWS"`. -/
theorem C10_windows_check_case_sensitive_witness :
    (mountPathsForOS "Windows").pathPrefix = "/"
    ∧ (mountPathsForOS "WINDOWS").pathPrefix = "/" :=
  ⟨C10_windows_check_case_sensitive "Windows" (by decide),
   C10_windows_check_case_sensitive "WINDOWS" (by decide)⟩

/-! ## Random volume names -/

/-- Characters generated by `randString` determine the draw. -/
lemma charOfNat_add_inj :
    ∀ a b : Fin 26, Char.ofNat (97 + a.val) = Char.ofNat (97 + b.val) → a = b := by
  decide

/-- Characters generated by `randString` are lowercase ASCII letters. -/
lemma charOfNat_add_bounds :
    ∀ a : Fin 26, 97 ≤ (Char.ofNat (97 + a.val)).toNat
      ∧ (Char.ofNat (97 + a.val)).toNat ≤ 122 := by
  decide

/-- Equal maps over `List.range n` agree below `n`. -/
lemma map_range_agree {α : Type} {n : Nat} {f g : Nat → α}
    (h : (List.range n).map f = (List.range n).map g) : ∀ i < n, f i = g i := by
  intro i hi
  have h2 := congrArg (fun L => L.get? i) h
  simpa [List.get?_map, List.get?_range, hi] using h2

/-- Extends a draw vector of length 10 to a full draw stream (padding with 0). -/
def extFin (v : Fin 10 → Fin 26) : Nat → Fin 26 :=
  fun i => if h : i < 10 then v ⟨i, h⟩ else ⟨0, by norm_num⟩

/-- Distinct draw vectors give distinct 10-character strings. -/
lemma randString_extFin_inj :
    Function.Injective (fun v : Fin 10 → Fin 26 => randString 10 (extFin v)) := by
  intro v w h
  have hdata := congrArg String.data h
  simp only [randString] at hdata
  funext i
  have hagree := map_range_agree hdata i.val i.isLt
  have := charOfNat_add_inj (extFin v i.val) (extFin w i.val) hagree
  simpa [extFin, i.isLt, Fin.eta] using this

/-- The 10-character lowercase suffixes form a name space of size `26 ^ 10`. -/
lemma randString_image_card :
    (Finset.image (fun v : Fin 10 → Fin 26 => randString 10 (extFin v))
      Finset.univ).card = 26 ^ 10 := by
  rw [Finset.card_image_of_injective _ randString_extFin_inj, Finset.card_univ]
  simp [Fintype.card_fun]

/-- **C7.** Every `Setup` call generates exactly one layers-volume name and one
app-volume name, each a fixed prefix (`pack-layers-`, `pack-app-`) followed by a
10-character suffix of lowercase letters drawn from the random source, and the
suffix name space has size at least `26 ^ 10`. -/
theorem C7_setup_volume_names (l : Lifecycle) (opts : LifecycleOptions)
    (rnd : Nat → Fin 26) :
    ((l.Setup opts rnd).1.layersVolume = "pack-layers-" ++ randString 10 rnd
      ∧ (l.Setup opts rnd).1.appVolume = "pack-app-" ++ randString 10 (fun i => rnd (10 + i)))
    ∧ (∀ g : Nat → Fin 26, (randString 10 g).length = 10
        ∧ ∀ c ∈ (randString 10 g).data, 97 ≤ c.toNat ∧ c.toNat ≤ 122)
    ∧ 26 ^ 10 ≤ (Finset.image (fun v : Fin 10 → Fin 26 => randString 10 (extFin v))
        Finset.univ).card := by
  refine ⟨?_, ?_, le_of_eq randString_image_card.symm⟩
  · cases h : opts.builder.imageOS <;>
      simp [Lifecycle.Setup, h, Lifecycle.setupOkState, Lifecycle.setupState]
  · intro g
    constructor
    · simp [randString, String.length]
    · intro c hc
      simp only [randString, List.mem_map, List.mem_range] at hc
      obtain ⟨i, _, rfl⟩ := hc
      exact charOfNat_add_bounds (g i)

/-- Witness for C7: the all-zero draw stream yields the all-`a` suffix, whose
characters are lowercase letters. -/
theorem C7_setup_volume_names_witness : 97 ≤ Char.toNat 'a' ∧ Char.toNat 'a' ≤ 122 :=
  ((C7_setup_volume_names {} sampleOpts rnd0).2.1 rnd0).2 'a' (by decide)

/-! ## Control-flow characterization of `Execute` -/

lemma countCleanup_append (xs ys : List Event) :
    countCleanup (xs ++ ys) = countCleanup xs + countCleanup ys := by
  induction xs with
  | nil => simp [countCleanup]
  | cons x t ih => cases x <;> simp [countCleanup, ih] <;> omega

lemma execute_setup_error {l : Lifecycle} {ctx : Ctx} {opts : LifecycleOptions}
    {rnd : Nat → Fin 26} {env : PhaseEnv} {docker : Docker}
    {cn : String → String → String} {e : Err}
    (hos : opts.builder.imageOS = .error e) :
    l.Execute ctx opts rnd env docker cn = (some e, []) := by
  simp [Lifecycle.Execute, Lifecycle.Setup, hos]

lemma execute_setup_ok {l : Lifecycle} {ctx : Ctx} {opts : LifecycleOptions}
    {rnd : Nat → Fin 26} {env : PhaseEnv} {docker : Docker}
    {cn : String → String → String} {os : String}
    (hos : opts.builder.imageOS = .ok os) :
    l.Execute ctx opts rnd env docker cn =
      (((l.setupOkState opts rnd os).executePhases ctx opts env cn).1,
        ((l.setupOkState opts rnd os).executePhases ctx opts env cn).2
          ++ cleanupEvents (l.setupOkState opts rnd os)) := by
  simp [Lifecycle.Execute, Lifecycle.Setup, hos, Lifecycle.Cleanup]

lemma executePhases_clear_err {l : Lifecycle} {ctx : Ctx} {opts : LifecycleOptions}
    {env : PhaseEnv} {cn : String → String → String} {e : Err}
    (hcc : opts.clearCache = true) (hce : env.clearResult ctx = some e) :
    l.executePhases ctx opts env cn =
      (some (.wrap "clearing build cache" e),
        [.debugUsingBuildCache (cn opts.image "build"), .cacheClear opts.image "build"]) := by
  simp [Lifecycle.executePhases, hcc, hce]

lemma executePhases_clear_ok {l : Lifecycle} {ctx : Ctx} {opts : LifecycleOptions}
    {env : PhaseEnv} {cn : String → String → String}
    (hcc : opts.clearCache = true) (hce : env.clearResult ctx = none) :
    l.executePhases ctx opts env cn =
      l.phaseSequence ctx opts env
        [.debugUsingBuildCache (cn opts.image "build"), .cacheClear opts.image "build",
          .debugBuildCacheCleared (cn opts.image "build")] := by
  simp [Lifecycle.executePhases, hcc, hce]

lemma executePhases_noclear {l : Lifecycle} {ctx : Ctx} {opts : LifecycleOptions}
    {env : PhaseEnv} {cn : String → String → String}
    (hcc : opts.clearCache = false) :
    l.executePhases ctx opts env cn =
      l.phaseSequence ctx opts env [.debugUsingBuildCache (cn opts.image "build")] := by
  simp [Lifecycle.executePhases, hcc]

lemma phaseSequence_prepare_err {l : Lifecycle} {ctx : Ctx} {opts : LifecycleOptions}
    {env : PhaseEnv} {ev : List Event} {e : Err}
    (hp : env.prepareResult ctx = some e) :
    l.phaseSequence ctx opts env ev =
      (some e, ev ++ [.step "PREPARING", .phase "prepareAppVolume"]) := by
  simp [Lifecycle.phaseSequence, hp]

lemma phaseSequence_detect_err {l : Lifecycle} {ctx : Ctx} {opts : LifecycleOptions}
    {env : PhaseEnv} {ev : List Event} {e : Err}
    (hp : env.prepareResult ctx = none) (hd : env.detectResult ctx = some e) :
    l.phaseSequence ctx opts env ev =
      (some e, ev ++ [.step "PREPARING", .phase "prepareAppVolume",
        .step "DETECTING", .phase "detect"]) := by
  simp [Lifecycle.phaseSequence, hp, hd]

lemma phaseSequence_analyze_err {l : Lifecycle} {ctx : Ctx} {opts : LifecycleOptions}
    {env : PhaseEnv} {ev : List Event} {e : Err}
    (hp : env.prepareResult ctx = none) (hd : env.detectResult ctx = none)
    (ha : env.analyzeResult ctx = some e) :
    l.phaseSequence ctx opts env ev =
      (some e, ev ++ [.step "PREPARING", .phase "prepareAppVolume",
        .step "DETECTING", .phase "detect", .step "ANALYZING", .phase "analyze"]) := by
  simp [Lifecycle.phaseSequence, hp, hd, ha]

lemma phaseSequence_restore_err {l : Lifecycle} {ctx : Ctx} {opts : LifecycleOptions}
    {env : PhaseEnv} {ev : List Event} {e : Err}
    (hcc : opts.clearCache = false)
    (hp : env.prepareResult ctx = none) (hd : env.detectResult ctx = none)
    (ha : env.analyzeResult ctx = none) (hr : env.restoreResult ctx = some e) :
    l.phaseSequence ctx opts env ev =
      (some e, ev ++ [.step "PREPARING", .phase "prepareAppVolume",
        .step "DETECTING", .phase "detect", .step "ANALYZING", .phase "analyze",
        .step "RESTORING", .phase "restore"]) := by
  simp [Lifecycle.phaseSequence, hcc, hp, hd, ha, hr]

lemma phaseSequence_skip_restore {l : Lifecycle} {ctx : Ctx} {opts : LifecycleOptions}
    {env : PhaseEnv} {ev : List Event}
    (hcc : opts.clearCache = true)
    (hp : env.prepareResult ctx = none) (hd : env.detectResult ctx = none)
    (ha : env.analyzeResult ctx = none) :
    l.phaseSequence ctx opts env ev =
      l.buildExport ctx env (ev ++ [.step "PREPARING", .phase "prepareAppVolume",
        .step "DETECTING", .phase "detect", .step "ANALYZING", .phase "analyze",
        .step "RESTORING", .infoSkipRestore]) := by
  simp [Lifecycle.phaseSequence, hcc, hp, hd, ha]

lemma phaseSequence_after_restore {l : Lifecycle} {ctx : Ctx} {opts : LifecycleOptions}
    {env : PhaseEnv} {ev : List Event}
    (hcc : opts.clearCache = false)
    (hp : env.prepareResult ctx = none) (hd : env.detectResult ctx = none)
    (ha : env.analyzeResult ctx = none) (hr : env.restoreResult ctx = none) :
    l.phaseSequence ctx opts env ev =
      l.buildExport ctx env (ev ++ [.step "PREPARING", .phase "prepareAppVolume",
        .step "DETECTING", .phase "detect", .step "ANALYZING", .phase "analyze",
        .step "RESTORING", .phase "restore"]) := by
  simp [Lifecycle.phaseSequence, hcc, hp, hd, ha, hr]

lemma buildExport_build_err {l : Lifecycle} {ctx : Ctx} {env : PhaseEnv}
    {ev : List Event} {e : Err} (hb : env.buildResult ctx = some e) :
    l.buildExport ctx env ev = (some e, ev ++ [.step "BUILDING", .phase "build"]) := by
  simp [Lifecycle.buildExport, hb]

lemma buildExport_export_err {l : Lifecycle} {ctx : Ctx} {env : PhaseEnv}
    {ev : List Event} {e : Err}
    (hb : env.buildResult ctx = none) (hx : env.exportResult ctx = some e) :
    l.buildExport ctx env ev =
      (some e, ev ++ [.step "BUILDING", .phase "build",
        .step "EXPORTING", .phase "export"]) := by
  simp [Lifecycle.buildExport, hb, hx]

lemma buildExport_ok {l : Lifecycle} {ctx : Ctx} {env : PhaseEnv} {ev : List Event}
    (hb : env.buildResult ctx = none) (hx : env.exportResult ctx = none) :
    l.buildExport ctx env ev =
      (none, ev ++ [.step "BUILDING", .phase "build",
        .step "EXPORTING", .phase "export"]) := by
  simp [Lifecycle.buildExport, hb, hx]

/-! ## Claim C1: error short-circuiting with guaranteed cleanup -/

/-- **C1.** In every `Execute` run: if `Setup` fails, its error is returned and
nothing else happens (no phase, no cleanup). After a successful `Setup`, the
first failing step — the cache clear (when requested) or any of the six phase
invocations — determines the returned error (the clear error is returned
wrapped with its operation context), none of the subsequent phases is invoked,
and `Cleanup` is invoked exactly once. -/
theorem C1_error_short_circuit (l : Lifecycle) (ctx : Ctx) (opts : LifecycleOptions)
    (rnd : Nat → Fin 26) (env : PhaseEnv) (docker : Docker)
    (cn : String → String → String) (r : Option Err) (tr : List Event)
    (hex : l.Execute ctx opts rnd env docker cn = (r, tr)) :
    (∀ e, opts.builder.imageOS = .error e → r = some e ∧ tr = [])
    ∧ (∀ os, opts.builder.imageOS = .ok os →
      ((∀ e, opts.clearCache = true → env.clearResult ctx = some e →
          r = some (.wrap "clearing build cache" e)
          ∧ (∀ p, Event.phase p ∉ tr) ∧ countCleanup tr = 1)
      ∧ (∀ e, (opts.clearCache = true → env.clearResult ctx = none) →
          env.prepareResult ctx = some e →
          r = some e ∧ Event.phase "detect" ∉ tr ∧ Event.phase "analyze" ∉ tr
          ∧ Event.phase "restore" ∉ tr ∧ Event.phase "build" ∉ tr
          ∧ Event.phase "export" ∉ tr ∧ countCleanup tr = 1)
      ∧ (∀ e, (opts.clearCache = true → env.clearResult ctx = none) →
          env.prepareResult ctx = none → env.detectResult ctx = some e →
          r = some e ∧ Event.phase "analyze" ∉ tr ∧ Event.phase "restore" ∉ tr
          ∧ Event.phase "build" ∉ tr ∧ Event.phase "export" ∉ tr
          ∧ countCleanup tr = 1)
      ∧ (∀ e, (opts.clearCache = true → env.clearResult ctx = none) →
          env.prepareResult ctx = none → env.detectResult ctx = none →
          env.analyzeResult ctx = some e →
          r = some e ∧ Event.phase "restore" ∉ tr ∧ Event.phase "build" ∉ tr
          ∧ Event.phase "export" ∉ tr ∧ countCleanup tr = 1)
      ∧ (∀ e, opts.clearCache = false →
          env.prepareResult ctx = none → env.detectResult ctx = none →
          env.analyzeResult ctx = none → env.restoreResult ctx = some e →
          r = some e ∧ Event.phase "build" ∉ tr ∧ Event.phase "export" ∉ tr
          ∧ countCleanup tr = 1)
      ∧ (∀ e, (opts.clearCache = true → env.clearResult ctx = none) →
          env.prepareResult ctx = none → env.detectResult ctx = none →
          env.analyzeResult ctx = none →
          (opts.clearCache = false → env.restoreResult ctx = none) →
          env.buildResult ctx = some e →
          r = some e ∧ Event.phase "export" ∉ tr ∧ countCleanup tr = 1)
      ∧ (∀ e, (opts.clearCache = true → env.clearResult ctx = none) →
          env.prepareResult ctx = none → env.detectResult ctx = none →
          env.analyzeResult ctx = none →
          (opts.clearCache = false → env.restoreResult ctx = none) →
          env.buildResult ctx = none → env.exportResult ctx = some e →
          r = some e ∧ countCleanup tr = 1))) := by
  have hr : r = (l.Execute ctx opts rnd env docker cn).1 := by rw [hex]
  have ht : tr = (l.Execute ctx opts rnd env docker cn).2 := by rw [hex]
  subst hr; subst ht
  refine ⟨?_, fun os hos => ⟨?_, ?_, ?_, ?_, ?_, ?_, ?_⟩⟩
  · intro e he
    rw [execute_setup_error he]
    exact ⟨rfl, rfl⟩
  · intro e hcc hce
    rw [execute_setup_ok hos, executePhases_clear_err hcc hce]
    refine ⟨rfl, fun p => ?_, ?_⟩
    · simp [cleanupEvents]
    · simp [countCleanup_append, countCleanup, cleanupEvents]
  · intro e hclr hp
    cases hcc : opts.clearCache with
    | true =>
        rw [execute_setup_ok hos, executePhases_clear_ok hcc (hclr hcc),
          phaseSequence_prepare_err hp]
        refine ⟨rfl, ?_, ?_, ?_, ?_, ?_, ?_⟩ <;>
          simp [cleanupEvents, countCleanup_append, countCleanup]
    | false =>
        rw [execute_setup_ok hos, executePhases_noclear hcc,
          phaseSequence_prepare_err hp]
        refine ⟨rfl, ?_, ?_, ?_, ?_, ?_, ?_⟩ <;>
          simp [cleanupEvents, countCleanup_append, countCleanup]
  · intro e hclr hp hd
    cases hcc : opts.clearCache with
    | true =>
        rw [execute_setup_ok hos, executePhases_clear_ok hcc (hclr hcc),
          phaseSequence_detect_err hp hd]
        refine ⟨rfl, ?_, ?_, ?_, ?_, ?_⟩ <;>
          simp [cleanupEvents, countCleanup_append, countCleanup]
    | false =>
        rw [execute_setup_ok hos, executePhases_noclear hcc,
          phaseSequence_detect_err hp hd]
        refine ⟨rfl, ?_, ?_, ?_, ?_, ?_⟩ <;>
          simp [cleanupEvents, countCleanup_append, countCleanup]
  · intro e hclr hp hd ha
    cases hcc : opts.clearCache with
    | true =>
        rw [execute_setup_ok hos, executePhases_clear_ok hcc (hclr hcc),
          phaseSequence_analyze_err hp hd ha]
        refine ⟨rfl, ?_, ?_, ?_, ?_⟩ <;>
          simp [cleanupEvents, countCleanup_append, countCleanup]
    | false =>
        rw [execute_setup_ok hos, executePhases_noclear hcc,
          phaseSequence_analyze_err hp hd ha]
        refine ⟨rfl, ?_, ?_, ?_, ?_⟩ <;>
          simp [cleanupEvents, countCleanup_append, countCleanup]
  · intro e hcc hp hd ha hrr
    rw [execute_setup_ok hos, executePhases_noclear hcc,
      phaseSequence_restore_err hcc hp hd ha hrr]
    refine ⟨rfl, ?_, ?_, ?_⟩ <;>
      simp [cleanupEvents, countCleanup_append, countCleanup]
  · intro e hclr hp hd ha hres hb
    cases hcc : opts.clearCache with
    | true =>
        rw [execute_setup_ok hos, executePhases_clear_ok hcc (hclr hcc),
          phaseSequence_skip_restore hcc hp hd ha, buildExport_build_err hb]
        refine ⟨rfl, ?_, ?_⟩ <;>
          simp [cleanupEvents, countCleanup_append, countCleanup]
    | false =>
        rw [execute_setup_ok hos, executePhases_noclear hcc,
          phaseSequence_after_restore hcc hp hd ha (hres hcc),
          buildExport_build_err hb]
        refine ⟨rfl, ?_, ?_⟩ <;>
          simp [cleanupEvents, countCleanup_append, countCleanup]
  · intro e hclr hp hd ha hres hb hx
    cases hcc : opts.clearCache with
    | true =>
        rw [execute_setup_ok hos, executePhases_clear_ok hcc (hclr hcc),
          phaseSequence_skip_restore hcc hp hd ha, buildExport_export_err hb hx]
        exact ⟨rfl, by simp [cleanupEvents, countCleanup_append, countCleanup]⟩
    | false =>
        rw [execute_setup_ok hos, executePhases_noclear hcc,
          phaseSequence_after_restore hcc hp hd ha (hres hcc),
          buildExport_export_err hb hx]
        exact ⟨rfl, by simp [cleanupEvents, countCleanup_append, countCleanup]⟩

/-- Witness for C1: a concrete run in which the detect phase fails; `Execute`
returns the detect error, the later phases are absent from the trace, and
cleanup happened exactly once. -/
theorem C1_error_short_circuit_witness :
    (some (Err.base "detector exited 1") : Option Err) = some (.base "detector exited 1")
    ∧ Event.phase "analyze"
        ∉ ([Event.debugUsingBuildCache "pack-cache-registry.example/app.build",
            .step "PREPARING", .phase "prepareAppVolume", .step "DETECTING",
            .phase "detect", .cleanupCall,
            .volumeRemove Ctx.background "pack-layers-aaaaaaaaaa" true,
            .volumeRemove Ctx.background "pack-app-aaaaaaaaaa" true] : List Event)
    ∧ Event.phase "restore"
        ∉ ([Event.debugUsingBuildCache "pack-cache-registry.example/app.build",
            .step "PREPARING", .phase "prepareAppVolume", .step "DETECTING",
            .phase "detect", .cleanupCall,
            .volumeRemove Ctx.background "pack-layers-aaaaaaaaaa" true,
            .volumeRemove Ctx.background "pack-app-aaaaaaaaaa" true] : List Event)
    ∧ Event.phase "build"
        ∉ ([Event.debugUsingBuildCache "pack-cache-registry.example/app.build",
            .step "PREPARING", .phase "prepareAppVolume", .step "DETECTING",
            .phase "detect", .cleanupCall,
            .volumeRemove Ctx.background "pack-layers-aaaaaaaaaa" true,
            .volumeRemove Ctx.background "pack-app-aaaaaaaaaa" true] : List Event)
    ∧ Event.phase "export"
        ∉ ([Event.debugUsingBuildCache "pack-cache-registry.example/app.build",
            .step "PREPARING", .phase "prepareAppVolume", .step "DETECTING",
            .phase "detect", .cleanupCall,
            .volumeRemove Ctx.background "pack-layers-aaaaaaaaaa" true,
            .volumeRemove Ctx.background "pack-app-aaaaaaaaaa" true] : List Event)
    ∧ countCleanup
        ([Event.debugUsingBuildCache "pack-cache-registry.example/app.build",
          .step "PREPARING", .phase "prepareAppVolume", .step "DETECTING",
          .phase "detect", .cleanupCall,
          .volumeRemove Ctx.background "pack-layers-aaaaaaaaaa" true,
          .volumeRemove Ctx.background "pack-app-aaaaaaaaaa" true] : List Event) = 1 :=
  ((C1_error_short_circuit {} ctx0 sampleOpts rnd0 envDetectFail docker0 cn0
      (some (.base "detector exited 1"))
      [.debugUsingBuildCache "pack-cache-registry.example/app.build",
        .step "PREPARING", .phase "prepareAppVolume", .step "DETECTING",
        .phase "detect", .cleanupCall,
        .volumeRemove Ctx.background "pack-layers-aaaaaaaaaa" true,
        .volumeRemove Ctx.background "pack-app-aaaaaaaaaa" true]
      (by decide)).2 "linux" rfl).2.2.1
    (.base "detector exited 1") (by decide) (by decide) (by decide)

/-! ## Claim C2: phase ordering, step banners and the restore skip -/

/-- **C2.** In every `Execute` run that passes `Setup`: the step banners, phase
invocations and the restore-skip notice in the trace form a prefix of the
canonical plan (PREPARING/prepare-app-volume, DETECTING/Detect,
ANALYZING/Analyze, RESTORING then either the skip notice or Restore,
BUILDING/Build, EXPORTING/Export) — so phases run strictly sequentially in
that order, each preceded by its banner; Restore is never invoked when
`ClearCache` is set (the informational skip event is recorded instead once the
sequence reaches RESTORING), and when `ClearCache` is not set the skip notice
never appears and Restore is invoked once the sequence reaches RESTORING. -/
theorem C2_phase_ordering (l : Lifecycle) (ctx : Ctx) (opts : LifecycleOptions)
    (rnd : Nat → Fin 26) (env : PhaseEnv) (docker : Docker)
    (cn : String → String → String) (os : String) (r : Option Err) (tr : List Event)
    (hos : opts.builder.imageOS = .ok os)
    (hex : l.Execute ctx opts rnd env docker cn = (r, tr)) :
    (∃ n, tr.filterMap tok = (planTokens opts.clearCache).take n)
    ∧ (opts.clearCache = true → Event.phase "restore" ∉ tr)
    ∧ (opts.clearCache = false → Event.infoSkipRestore ∉ tr)
    ∧ (opts.clearCache = false → env.prepareResult ctx = none →
        env.detectResult ctx = none → env.analyzeResult ctx = none →
        Event.phase "restore" ∈ tr)
    ∧ (opts.clearCache = true → env.clearResult ctx = none →
        env.prepareResult ctx = none → env.detectResult ctx = none →
        env.analyzeResult ctx = none → Event.infoSkipRestore ∈ tr) := by
  have ht : tr = (l.Execute ctx opts rnd env docker cn).2 := by rw [hex]
  subst ht
  cases hcc : opts.clearCache with
  | true =>
    cases hce : env.clearResult ctx with
    | some e =>
      rw [execute_setup_ok hos, executePhases_clear_err hcc hce]
      exact ⟨⟨0, by simp [cleanupEvents, tok, planTokens, hcc]⟩,
        by intros; simp_all [cleanupEvents], by intros; simp_all [cleanupEvents],
        by intros; simp_all [cleanupEvents], by intros; simp_all [cleanupEvents]⟩
    | none =>
      cases hp : env.prepareResult ctx with
      | some e =>
        rw [execute_setup_ok hos, executePhases_clear_ok hcc hce,
          phaseSequence_prepare_err hp]
        exact ⟨⟨2, by simp [cleanupEvents, tok, planTokens, hcc]⟩,
          by intros; simp_all [cleanupEvents], by intros; simp_all [cleanupEvents],
          by intros; simp_all [cleanupEvents], by intros; simp_all [cleanupEvents]⟩
      | none =>
        cases hd : env.detectResult ctx with
        | some e =>
          rw [execute_setup_ok hos, executePhases_clear_ok hcc hce,
            phaseSequence_detect_err hp hd]
          exact ⟨⟨4, by simp [cleanupEvents, tok, planTokens, hcc]⟩,
            by intros; simp_all [cleanupEvents], by intros; simp_all [cleanupEvents],
            by intros; simp_all [cleanupEvents], by intros; simp_all [cleanupEvents]⟩
        | none =>
          cases ha : env.analyzeResult ctx with
          | some e =>
            rw [execute_setup_ok hos, executePhases_clear_ok hcc hce,
              phaseSequence_analyze_err hp hd ha]
            exact ⟨⟨6, by simp [cleanupEvents, tok, planTokens, hcc]⟩,
              by intros; simp_all [cleanupEvents], by intros; simp_all [cleanupEvents],
              by intros; simp_all [cleanupEvents], by intros; simp_all [cleanupEvents]⟩
          | none =>
            cases hb : env.buildResult ctx with
            | some e =>
              rw [execute_setup_ok hos, executePhases_clear_ok hcc hce,
                phaseSequence_skip_restore hcc hp hd ha, buildExport_build_err hb]
              exact ⟨⟨10, by simp [cleanupEvents, tok, planTokens, hcc]⟩,
                by intros; simp_all [cleanupEvents], by intros; simp_all [cleanupEvents],
                by intros; simp_all [cleanupEvents], by intros; simp_all [cleanupEvents]⟩
            | none =>
              cases hx : env.exportResult ctx with
              | some e =>
                rw [execute_setup_ok hos, executePhases_clear_ok hcc hce,
                  phaseSequence_skip_restore hcc hp hd ha, buildExport_export_err hb hx]
                exact ⟨⟨12, by simp [cleanupEvents, tok, planTokens, hcc]⟩,
                  by intros; simp_all [cleanupEvents], by intros; simp_all [cleanupEvents],
                  by intros; simp_all [cleanupEvents], by intros; simp_all [cleanupEvents]⟩
              | none =>
                rw [execute_setup_ok hos, executePhases_clear_ok hcc hce,
                  phaseSequence_skip_restore hcc hp hd ha, buildExport_ok hb hx]
                exact ⟨⟨12, by simp [cleanupEvents, tok, planTokens, hcc]⟩,
                  by intros; simp_all [cleanupEvents], by intros; simp_all [cleanupEvents],
                  by intros; simp_all [cleanupEvents], by intros; simp_all [cleanupEvents]⟩
  | false =>
    cases hp : env.prepareResult ctx with
    | some e =>
      rw [execute_setup_ok hos, executePhases_noclear hcc, phaseSequence_prepare_err hp]
      exact ⟨⟨2, by simp [cleanupEvents, tok, planTokens, hcc]⟩,
        by intros; simp_all [cleanupEvents], by intros; simp_all [cleanupEvents],
        by intros; simp_all [cleanupEvents], by intros; simp_all [cleanupEvents]⟩
    | none =>
      cases hd : env.detectResult ctx with
      | some e =>
        rw [execute_setup_ok hos, executePhases_noclear hcc,
          phaseSequence_detect_err hp hd]
        exact ⟨⟨4, by simp [cleanupEvents, tok, planTokens, hcc]⟩,
          by intros; simp_all [cleanupEvents], by intros; simp_all [cleanupEvents],
          by intros; simp_all [cleanupEvents], by intros; simp_all [cleanupEvents]⟩
      | none =>
        cases ha : env.analyzeResult ctx with
        | some e =>
          rw [execute_setup_ok hos, executePhases_noclear hcc,
            phaseSequence_analyze_err hp hd ha]
          exact ⟨⟨6, by simp [cleanupEvents, tok, planTokens, hcc]⟩,
            by intros; simp_all [cleanupEvents], by intros; simp_all [cleanupEvents],
            by intros; simp_all [cleanupEvents], by intros; simp_all [cleanupEvents]⟩
        | none =>
          cases hrr : env.restoreResult ctx with
          | some e =>
            rw [execute_setup_ok hos, executePhases_noclear hcc,
              phaseSequence_restore_err hcc hp hd ha hrr]
            exact ⟨⟨8, by simp [cleanupEvents, tok, planTokens, hcc]⟩,
              by intros; simp_all [cleanupEvents], by intros; simp_all [cleanupEvents],
              by intros; simp_all [cleanupEvents], by intros; simp_all [cleanupEvents]⟩
          | none =>
            cases hb : env.buildResult ctx with
            | some e =>
              rw [execute_setup_ok hos, executePhases_noclear hcc,
                phaseSequence_after_restore hcc hp hd ha hrr, buildExport_build_err hb]
              exact ⟨⟨10, by simp [cleanupEvents, tok, planTokens, hcc]⟩,
                by intros; simp_all [cleanupEvents], by intros; simp_all [cleanupEvents],
                by intros; simp_all [cleanupEvents], by intros; simp_all [cleanupEvents]⟩
            | none =>
              cases hx : env.exportResult ctx with
              | some e =>
                rw [execute_setup_ok hos, executePhases_noclear hcc,
                  phaseSequence_after_restore hcc hp hd ha hrr,
                  buildExport_export_err hb hx]
                exact ⟨⟨12, by simp [cleanupEvents, tok, planTokens, hcc]⟩,
                  by intros; simp_all [cleanupEvents], by intros; simp_all [cleanupEvents],
                  by intros; simp_all [cleanupEvents], by intros; simp_all [cleanupEvents]⟩
              | none =>
                rw [execute_setup_ok hos, executePhases_noclear hcc,
                  phaseSequence_after_restore hcc hp hd ha hrr, buildExport_ok hb hx]
                exact ⟨⟨12, by simp [cleanupEvents, tok, planTokens, hcc]⟩,
                  by intros; simp_all [cleanupEvents], by intros; simp_all [cleanupEvents],
                  by intros; simp_all [cleanupEvents], by intros; simp_all [cleanupEvents]⟩

/-- Witness for C2: the fully successful clear-cache run; its step/phase/skip
tokens are exactly the canonical clear-cache plan. -/
theorem C2_phase_ordering_witness :
    ∃ n, ((Lifecycle.Execute {} ctx0 optsClear rnd0 envOk docker0 cn0).2.filterMap tok)
      = (planTokens optsClear.clearCache).take n :=
  (C2_phase_ordering {} ctx0 optsClear rnd0 envOk docker0 cn0 "linux"
    (Lifecycle.Execute {} ctx0 optsClear rnd0 envOk docker0 cn0).1
    (Lifecycle.Execute {} ctx0 optsClear rnd0 envOk docker0 cn0).2
    rfl rfl).1

/-! ## Claim C3: Cleanup is best-effort, but the returned error is last-seen -/

/-- Counterexample to C3 as stated: when both removals fail, the error that
`Cleanup` returns is only the app-volume error wrapped with the app volume
name; the layers-volume removal error is nowhere in its chain, so the result
is not an aggregate of each removal error. -/
theorem C3_counterexample :
    (cleanupL.Cleanup dockerBothFail).1
      = some (.wrap "failed to clean up app volume pack-app-a" (.base "app rm failed"))
    ∧ Err.contains
        (.wrap "failed to clean up app volume pack-app-a" (.base "app rm failed"))
        (.base "layers rm failed") = false := by
  constructor
  · decide
  · decide

/-- **C3 (amended).** Every `Cleanup` call attempts the removal of both the
layers volume and the app volume, regardless of whether the first removal
failed; each removal error is wrapped with the failing volume's name, but the
returned error is the last-seen one: a failing app-volume removal's wrapped
error is returned (replacing any layers-volume error), otherwise a failing
layers-volume removal's wrapped error is returned; if both removals succeed,
`Cleanup` returns no error. -/
theorem C3_amended_cleanup_best_effort (l : Lifecycle) (docker : Docker) :
    (l.Cleanup docker).2 = cleanupEvents l
    ∧ Event.volumeRemove Ctx.background l.layersVolume true ∈ (l.Cleanup docker).2
    ∧ Event.volumeRemove Ctx.background l.appVolume true ∈ (l.Cleanup docker).2
    ∧ (l.Cleanup docker).1 =
        (match docker.volumeRemove Ctx.background l.appVolume true with
          | some e2 => some (.wrap ("failed to clean up app volume " ++ l.appVolume) e2)
          | none =>
            match docker.volumeRemove Ctx.background l.layersVolume true with
            | some e1 =>
                some (.wrap ("failed to clean up layers volume " ++ l.layersVolume) e1)
            | none => none) := by
  refine ⟨rfl, by simp [Lifecycle.Cleanup, cleanupEvents],
    by simp [Lifecycle.Cleanup, cleanupEvents], ?_⟩
  cases h1 : docker.volumeRemove Ctx.background l.layersVolume true <;>
    cases h2 : docker.volumeRemove Ctx.background l.appVolume true <;>
      simp [Lifecycle.Cleanup, h1, h2]

/-! ## Claim C4: a cache-clear failure is fatal and pre-phase -/

/-- **C4.** When `ClearCache` is set and clearing the build cache fails,
`Execute` returns the clear error wrapped with "clearing build cache" and no
phase is invoked — not the app-volume preparation nor any of Detect, Analyze,
Restore, Build, Export. -/
theorem C4_clear_cache_failure_fatal (l : Lifecycle) (ctx : Ctx)
    (opts : LifecycleOptions) (rnd : Nat → Fin 26) (env : PhaseEnv)
    (docker : Docker) (cn : String → String → String) (os : String) (e : Err)
    (r : Option Err) (tr : List Event)
    (hos : opts.builder.imageOS = .ok os) (hcc : opts.clearCache = true)
    (hce : env.clearResult ctx = some e)
    (hex : l.Execute ctx opts rnd env docker cn = (r, tr)) :
    r = some (.wrap "clearing build cache" e) ∧ ∀ p, Event.phase p ∉ tr := by
  have hr : r = (l.Execute ctx opts rnd env docker cn).1 := by rw [hex]
  have ht : tr = (l.Execute ctx opts rnd env docker cn).2 := by rw [hex]
  subst hr; subst ht
  rw [execute_setup_ok hos, executePhases_clear_err hcc hce]
  exact ⟨rfl, fun p => by simp [cleanupEvents]⟩

/-- Witness for C4: the concrete run in which clearing fails. -/
theorem C4_clear_cache_failure_fatal_witness :
    (Lifecycle.Execute {} ctx0 optsClear rnd0 envClearFail docker0 cn0).1
      = some (.wrap "clearing build cache" (.base "cache rm failed"))
    ∧ ∀ p, Event.phase p
        ∉ (Lifecycle.Execute {} ctx0 optsClear rnd0 envClearFail docker0 cn0).2 :=
  C4_clear_cache_failure_fatal {} ctx0 optsClear rnd0 envClearFail docker0 cn0
    "linux" (.base "cache rm failed") _ _ rfl rfl rfl rfl

/-! ## Claim C5: the platform-API compatibility gate (modelled from the spec) -/

/-- **C5.** A builder declaring a platform API version outside
`SupportedPlatformAPIVersions` is rejected by the (spec-modelled) gate before
the lifecycle runs: the result is an error and the trace is empty — no phase
is invoked, no volume is touched. -/
theorem C5_platform_api_gate (l : Lifecycle) (ctx : Ctx) (opts : LifecycleOptions)
    (rnd : Nat → Fin 26) (env : PhaseEnv) (docker : Docker)
    (cn : String → String → String)
    (h : SupportedPlatformAPIVersions.contains opts.builder.platformAPIVersion = false) :
    runLifecycleGated l ctx opts rnd env docker cn
      = (some (.base ("pack does not support builder platform API version "
          ++ opts.builder.platformAPIVersion)), []) := by
  unfold runLifecycleGated
  rw [h]
  simp

/-- Witness for C5 at the spec's example version `"0.9"`. -/
theorem C5_platform_api_gate_witness :
    runLifecycleGated {} ctx0 opts09 rnd0 envOk docker0 cn0
      = (some (.base ("pack does not support builder platform API version "
          ++ opts09.builder.platformAPIVersion)), []) :=
  C5_platform_api_gate {} ctx0 opts09 rnd0 envOk docker0 cn0 (by decide)

/-! ## Claim C8: the build cache is the only cache ever cleared -/

/-- Counterexample to C8 as stated: in an `Execute` run whose `Setup` fails,
the `ClearCache` option is set and yet `Clear` is never called on the build
cache, so "Clear is called iff the caller set ClearCache" does not hold of
every `Execute` run. -/
theorem C8_counterexample :
    optsBadOS.clearCache = true
    ∧ Event.cacheClear optsBadOS.image "build"
        ∉ (Lifecycle.Execute {} ctx0 optsBadOS rnd0 envOk docker0 cn0).2 := by
  refine ⟨rfl, ?_⟩
  rw [execute_setup_error (e := .base "no os recorded") rfl]
  simp

/-- **C8 (amended).** In every `Execute` run, every `Clear` call in the trace is
on the build cache of the target image and only happens when `ClearCache` was
set (in particular the launch cache is never cleared); and in every run whose
`Setup` succeeds, the resolved build cache name is logged and `Clear` is called
on the build cache if and only if `ClearCache` was set. -/
theorem C8_amended_clear_only_build_cache (l : Lifecycle) (ctx : Ctx)
    (opts : LifecycleOptions) (rnd : Nat → Fin 26) (env : PhaseEnv)
    (docker : Docker) (cn : String → String → String)
    (r : Option Err) (tr : List Event)
    (hex : l.Execute ctx opts rnd env docker cn = (r, tr)) :
    (∀ i k, Event.cacheClear i k ∈ tr →
      i = opts.image ∧ k = "build" ∧ opts.clearCache = true)
    ∧ (∀ os, opts.builder.imageOS = .ok os →
        Event.debugUsingBuildCache (cn opts.image "build") ∈ tr
        ∧ (opts.clearCache = true ↔ Event.cacheClear opts.image "build" ∈ tr)) := by
  have ht : tr = (l.Execute ctx opts rnd env docker cn).2 := by rw [hex]
  subst ht
  cases hos : opts.builder.imageOS with
  | error e0 =>
    rw [execute_setup_error hos]
    exact ⟨by simp, fun os2 hos2 => by simp at hos2⟩
  | ok os0 =>
    cases hcc : opts.clearCache with
    | true =>
      cases hce : env.clearResult ctx with
      | some e =>
        rw [execute_setup_ok hos, executePhases_clear_err hcc hce]
        exact ⟨fun i k hik => by
            simp [cleanupEvents] at hik; exact ⟨hik.1, hik.2, rfl⟩,
          fun os2 _ => ⟨by simp [cleanupEvents], by simp [cleanupEvents]⟩⟩
      | none =>
        cases hp : env.prepareResult ctx with
        | some e =>
          rw [execute_setup_ok hos, executePhases_clear_ok hcc hce,
            phaseSequence_prepare_err hp]
          exact ⟨fun i k hik => by
              simp [cleanupEvents] at hik; exact ⟨hik.1, hik.2, rfl⟩,
            fun os2 _ => ⟨by simp [cleanupEvents], by simp [cleanupEvents]⟩⟩
        | none =>
          cases hd : env.detectResult ctx with
          | some e =>
            rw [execute_setup_ok hos, executePhases_clear_ok hcc hce,
              phaseSequence_detect_err hp hd]
            exact ⟨fun i k hik => by
                simp [cleanupEvents] at hik; exact ⟨hik.1, hik.2, rfl⟩,
              fun os2 _ => ⟨by simp [cleanupEvents], by simp [cleanupEvents]⟩⟩
          | none =>
            cases ha : env.analyzeResult ctx with
            | some e =>
              rw [execute_setup_ok hos, executePhases_clear_ok hcc hce,
                phaseSequence_analyze_err hp hd ha]
              exact ⟨fun i k hik => by
                  simp [cleanupEvents] at hik; exact ⟨hik.1, hik.2, rfl⟩,
                fun os2 _ => ⟨by simp [cleanupEvents], by simp [cleanupEvents]⟩⟩
            | none =>
              cases hb : env.buildResult ctx with
              | some e =>
                rw [execute_setup_ok hos, executePhases_clear_ok hcc hce,
                  phaseSequence_skip_restore hcc hp hd ha, buildExport_build_err hb]
                exact ⟨fun i k hik => by
                    simp [cleanupEvents] at hik; exact ⟨hik.1, hik.2, rfl⟩,
                  fun os2 _ => ⟨by simp [cleanupEvents], by simp [cleanupEvents]⟩⟩
              | none =>
                cases hx : env.exportResult ctx with
                | some e =>
                  rw [execute_setup_ok hos, executePhases_clear_ok hcc hce,
                    phaseSequence_skip_restore hcc hp hd ha,
                    buildExport_export_err hb hx]
                  exact ⟨fun i k hik => by
                      simp [cleanupEvents] at hik; exact ⟨hik.1, hik.2, rfl⟩,
                    fun os2 _ => ⟨by simp [cleanupEvents], by simp [cleanupEvents]⟩⟩
                | none =>
                  rw [execute_setup_ok hos, executePhases_clear_ok hcc hce,
                    phaseSequence_skip_restore hcc hp hd ha, buildExport_ok hb hx]
                  exact ⟨fun i k hik => by
                      simp [cleanupEvents] at hik; exact ⟨hik.1, hik.2, rfl⟩,
                    fun os2 _ => ⟨by simp [cleanupEvents], by simp [cleanupEvents]⟩⟩
    | false =>
      cases hp : env.prepareResult ctx with
      | some e =>
        rw [execute_setup_ok hos, executePhases_noclear hcc,
          phaseSequence_prepare_err hp]
        exact ⟨fun i k hik => by simp [cleanupEvents] at hik,
          fun os2 _ => ⟨by simp [cleanupEvents], by simp [cleanupEvents]⟩⟩
      | none =>
        cases hd : env.detectResult ctx with
        | some e =>
          rw [execute_setup_ok hos, executePhases_noclear hcc,
            phaseSequence_detect_err hp hd]
          exact ⟨fun i k hik => by simp [cleanupEvents] at hik,
            fun os2 _ => ⟨by simp [cleanupEvents], by simp [cleanupEvents]⟩⟩
        | none =>
          cases ha : env.analyzeResult ctx with
          | some e =>
            rw [execute_setup_ok hos, executePhases_noclear hcc,
              phaseSequence_analyze_err hp hd ha]
            exact ⟨fun i k hik => by simp [cleanupEvents] at hik,
              fun os2 _ => ⟨by simp [cleanupEvents], by simp [cleanupEvents]⟩⟩
          | none =>
            cases hrr : env.restoreResult ctx with
            | some e =>
              rw [execute_setup_ok hos, executePhases_noclear hcc,
                phaseSequence_restore_err hcc hp hd ha hrr]
              exact ⟨fun i k hik => by simp [cleanupEvents] at hik,
                fun os2 _ => ⟨by simp [cleanupEvents], by simp [cleanupEvents]⟩⟩
            | none =>
              cases hb : env.buildResult ctx with
              | some e =>
                rw [execute_setup_ok hos, executePhases_noclear hcc,
                  phaseSequence_after_restore hcc hp hd ha hrr,
                  buildExport_build_err hb]
                exact ⟨fun i k hik => by simp [cleanupEvents] at hik,
                  fun os2 _ => ⟨by simp [cleanupEvents], by simp [cleanupEvents]⟩⟩
              | none =>
                cases hx : env.exportResult ctx with
                | some e =>
                  rw [execute_setup_ok hos, executePhases_noclear hcc,
                    phaseSequence_after_restore hcc hp hd ha hrr,
                    buildExport_export_err hb hx]
                  exact ⟨fun i k hik => by simp [cleanupEvents] at hik,
                    fun os2 _ => ⟨by simp [cleanupEvents], by simp [cleanupEvents]⟩⟩
                | none =>
                  rw [execute_setup_ok hos, executePhases_noclear hcc,
                    phaseSequence_after_restore hcc hp hd ha hrr, buildExport_ok hb hx]
                  exact ⟨fun i k hik => by simp [cleanupEvents] at hik,
                    fun os2 _ => ⟨by simp [cleanupEvents], by simp [cleanupEvents]⟩⟩

/-- Witness for C8 (amended): the successful clear-cache run logs the resolved
build cache name and records the build-cache `Clear` call. -/
theorem C8_amended_clear_only_build_cache_witness :
    Event.debugUsingBuildCache (cn0 optsClear.image "build")
      ∈ (Lifecycle.Execute {} ctx0 optsClear rnd0 envOk docker0 cn0).2
    ∧ (optsClear.clearCache = true ↔ Event.cacheClear optsClear.image "build"
        ∈ (Lifecycle.Execute {} ctx0 optsClear rnd0 envOk docker0 cn0).2) :=
  (C8_amended_clear_only_build_cache {} ctx0 optsClear rnd0 envOk docker0 cn0
    _ _ rfl).2 "linux" rfl

/-! ## Claim C9: Cleanup removals use a fresh background context -/

/-- **C9.** `Cleanup` issues both volume removals with `context.Background()`
(never the caller-supplied build context), and in every `Execute` run whose
`Setup` succeeded — whatever the caller context, cancelled or not, and however
the phases fared — both removal calls appear in the trace, carrying the
background context. -/
theorem C9_cleanup_background_context (l : Lifecycle) (docker : Docker) :
    (l.Cleanup docker).2
      = [.cleanupCall, .volumeRemove Ctx.background l.layersVolume true,
          .volumeRemove Ctx.background l.appVolume true]
    ∧ ∀ ctx opts rnd env cn os r tr, opts.builder.imageOS = .ok os →
        l.Execute ctx opts rnd env docker cn = (r, tr) →
        Event.volumeRemove Ctx.background ("pack-layers-" ++ randString 10 rnd) true ∈ tr
        ∧ Event.volumeRemove Ctx.background
            ("pack-app-" ++ randString 10 (fun i => rnd (10 + i))) true ∈ tr := by
  refine ⟨rfl, ?_⟩
  intro ctx opts rnd env cn os r tr hos hex
  have ht : tr = (l.Execute ctx opts rnd env docker cn).2 := by rw [hex]
  subst ht
  rw [execute_setup_ok hos]
  constructor <;>
    simp [cleanupEvents, Lifecycle.setupOkState, Lifecycle.setupState]

/-- Witness for C9: a run whose caller context is cancelled still records both
background-context removals. -/
theorem C9_cleanup_background_context_witness :
    Event.volumeRemove Ctx.background ("pack-layers-" ++ randString 10 rnd0) true
      ∈ (Lifecycle.Execute {} ctxCancelled sampleOpts rnd0 envOk docker0 cn0).2
    ∧ Event.volumeRemove Ctx.background
        ("pack-app-" ++ randString 10 (fun i => rnd0 (10 + i))) true
      ∈ (Lifecycle.Execute {} ctxCancelled sampleOpts rnd0 envOk docker0 cn0).2 :=
  (C9_cleanup_background_context {} docker0).2 ctxCancelled sampleOpts rnd0 envOk cn0
    "linux" _ _ rfl rfl

end Pack
